import Mathlib

/- Shallow embedding of `nuwe_cmadaas/music/data.py`: the response decoding and
grid reconstruction layer of the CMADaaS MUSIC client.

Modelling conventions:
* Protobuf wire messages (`pb.RequestInfo`, `pb.RetArray2D`, ...) are Lean
  structures of plain fields; the byte-level `ParseFromString` step is the
  external schema-decode capability and is abstracted away, so each
  `load_from_protobuf_object` is modelled directly on the parsed field tree.
* Python floats are modelled as exact rationals (`Rat`); machine strings as
  `String`; byte arrays as `List Nat`; counts as `Nat`.
* `np.array(xs).reshape([r, c])` is `npReshape`, which fails (numpy raises
  `ValueError`) unless the flat length is exactly `r * c`; on success it is the
  row-major matrix `chunkRows r c xs`.
* Exceptions raised during a load (`assert`, `ZeroDivisionError` from
  `int(total/row_count)`, numpy `ValueError`, `TypeError` from `len(None)`)
  are modelled with `Except DecodeError`; an early `return` before the payload
  section yields `.ok` with only the fields assigned so far, all remaining
  fields keeping their `__init__` defaults.
* Fields whose Python default is `None` are `Option`-typed with default
  `none`; wire fields the code tests with `is not None` (`ret.lats`,
  `ret.lons`) are likewise `Option`-typed on the wire structure.
* `int(a/b)` on non-negative Python ints is truncating division, i.e.
  `Nat` division, preceded by a `ZeroDivisionError` check for `b = 0`. -/

/-- Exceptions that can escape a variant loader or converter. -/
inductive DecodeError where
  | assertionError
  | zeroDivisionError
  | valueError
  | typeError
  deriving DecidableEq, Repr

/-- Boolean success test for an `Except` result. -/
def exceptIsOk {ε α : Type} : Except ε α → Bool
  | .ok _ => true
  | .error _ => false

/-- Wire metadata block `pb.RequestInfo`. -/
structure PbRequestInfo where
  errorCode : Int := 0
  errorMessage : String := ""
  requestElems : String := ""
  requestParams : String := ""
  requestTime : String := ""
  responseTime : String := ""
  rowCount : Nat := 0
  takeTime : Nat := 0
  colCount : Nat := 0
  deriving DecidableEq, Repr

/-- Decoded metadata, class `RequestInfo` (defaults are its `__init__`
defaults). -/
structure RequestInfo where
  error_code : Int := 0
  error_message : String := ""
  request_elements : String := ""
  request_params : String := ""
  request_time : String := ""
  response_time : String := ""
  row_count : Nat := 0
  take_time : Int := 0
  col_count : Nat := 0
  deriving DecidableEq, Repr

/-- `RequestInfo.create_from_protobuf` / `load_protobuf`: verbatim field
copy from the wire metadata block. -/
def RequestInfo.create_from_protobuf (ri : PbRequestInfo) : RequestInfo :=
  { error_code := ri.errorCode
    error_message := ri.errorMessage
    request_elements := ri.requestElems
    request_params := ri.requestParams
    request_time := ri.requestTime
    response_time := ri.responseTime
    row_count := ri.rowCount
    take_time := ri.takeTime
    col_count := ri.colCount }

/-- Row-major chunking of a flat list into `r` rows of (intended) width `c`:
row `i` is `xs[i*c : (i+1)*c]`. This is the successful result of
`np.array(xs).reshape([r, c])`. -/
def chunkRows {α : Type} (r c : Nat) (xs : List α) : List (List α) :=
  match r with
  | 0 => []
  | r + 1 => xs.take c :: chunkRows r c (xs.drop c)

/-- `np.array(xs).reshape([r, c])`: numpy raises `ValueError` (here `none`)
unless the flat length is exactly `r * c`. -/
def npReshape {α : Type} (xs : List α) (r c : Nat) : Option (List (List α)) :=
  if xs.length = r * c then some (chunkRows r c xs) else none

/-- `np.linspace(a, b, n, endpoint=True)`. -/
def npLinspace (a b : Rat) (n : Nat) : List Rat :=
  match n with
  | 0 => []
  | 1 => [a]
  | _ => (List.range n).map fun (i : Nat) => a + (i : Rat) * ((b - a) / ((n : Rat) - 1))

/-- The axis comprehension `[start + i * step for i in range(count)]` used by
`GridArray2D.load_from_protobuf_object`. -/
def synthAxis (start step : Rat) (count : Nat) : List Rat :=
  (List.range count).map fun (i : Nat) => start + (i : Rat) * step

/-- Class `Array2D` instance state (`__init__` defaults). -/
structure Array2D where
  data : Option (List (List Rat)) := none
  request : Option RequestInfo := none
  element_names : Option (List String) := none
  row_count : Nat := 0
  col_count : Nat := 0
  deriving DecidableEq, Repr

/-- Wire message `pb.RetArray2D`. -/
structure PbRetArray2D where
  request : PbRequestInfo := {}
  elementNames : List String := []
  data : List Rat := []
  deriving DecidableEq, Repr

/-- `Array2D.load_from_protobuf_object`: metadata, element names, error-code
check, then derived column count, assertion against the declared column
count, and the row-major reshape. -/
def Array2D.load_from_protobuf_object (self : Array2D) (ra : PbRetArray2D) :
    Except DecodeError Array2D :=
  let req := RequestInfo.create_from_protobuf ra.request
  let s1 : Array2D := { self with request := some req
                                  element_names := some ra.elementNames }
  if req.error_code ≠ 0 then
    .ok s1
  else
    let s2 : Array2D := { s1 with row_count := ra.request.rowCount }
    if ra.request.rowCount = 0 then
      .error .zeroDivisionError
    else
      let total_count := ra.data.length
      let col_count := total_count / ra.request.rowCount
      let s3 : Array2D := { s2 with col_count := col_count }
      if col_count = ra.request.colCount then
        match npReshape ra.data s3.row_count s3.col_count with
        | some m => .ok { s3 with data := some m }
        | none => .error .valueError
      else
        .error .assertionError

/-- Class `DataBlock` instance state. -/
structure DataBlock where
  data_name : Option String := none
  data : Option (List Nat) := none
  request : Option RequestInfo := none
  deriving DecidableEq, Repr

/-- Wire message `pb.RetDataBlock`. -/
structure PbRetDataBlock where
  request : PbRequestInfo := {}
  dataName : String := ""
  byteArray : List Nat := []
  deriving DecidableEq, Repr

/-- `DataBlock.load_from_protobuf_object`: copies metadata, name and bytes
unconditionally; there is no error-code check in this loader. -/
def DataBlock.load_from_protobuf_object (self : DataBlock) (rb : PbRetDataBlock) :
    DataBlock :=
  { self with
    request := some (RequestInfo.create_from_protobuf rb.request)
    data_name := some rb.dataName
    data := some rb.byteArray }

/-- Class `GridArray2D` instance state. -/
structure GridArray2D where
  data : Option (List (List Rat)) := none
  request : Option RequestInfo := none
  start_lat : Rat := 0
  start_lon : Rat := 0
  end_lat : Rat := 0
  end_lon : Rat := 0
  lat_count : Nat := 0
  lon_count : Nat := 0
  lon_step : Rat := 0
  lat_step : Rat := 0
  lats : Option (List Rat) := none
  lons : Option (List Rat) := none
  units : String := ""
  user_element_name : String := ""
  deriving DecidableEq, Repr

/-- Wire message `pb.RetGridArray2D`. -/
structure PbRetGridArray2D where
  request : PbRequestInfo := {}
  startLat : Rat := 0
  startLon : Rat := 0
  endLat : Rat := 0
  endLon : Rat := 0
  latCount : Nat := 0
  lonCount : Nat := 0
  lonStep : Rat := 0
  latStep : Rat := 0
  lats : Option (List Rat) := none
  lons : Option (List Rat) := none
  units : String := ""
  userEleName : String := ""
  data : List Rat := []
  deriving DecidableEq, Repr

/-- `GridArray2D.load_from_protobuf_object`: metadata, error-code check,
geometry fields; each axis uses the wire list when the field is present
(`is not None`) and the synthesized axis otherwise; finally the payload is
reshaped into `(request.rowCount, len(data) / request.rowCount)` with no
assertion against the declared column count. -/
def GridArray2D.load_from_protobuf_object (self : GridArray2D)
    (g : PbRetGridArray2D) : Except DecodeError GridArray2D :=
  let req := RequestInfo.create_from_protobuf g.request
  let s1 : GridArray2D := { self with request := some req }
  if req.error_code ≠ 0 then
    .ok s1
  else
    let lats := match g.lats with
      | some l => l
      | none => synthAxis g.startLat g.latStep g.latCount
    let lons := match g.lons with
      | some l => l
      | none => synthAxis g.startLon g.lonStep g.lonCount
    let s2 : GridArray2D := { s1 with
      start_lat := g.startLat
      start_lon := g.startLon
      end_lat := g.endLat
      end_lon := g.endLon
      lat_count := g.latCount
      lon_count := g.lonCount
      lon_step := g.lonStep
      lat_step := g.latStep
      lats := some lats
      lons := some lons
      units := g.units
      user_element_name := g.userEleName }
    let row_count := req.row_count
    if row_count = 0 then
      .error .zeroDivisionError
    else
      let data_count := g.data.length
      let col_count := data_count / row_count
      match npReshape g.data row_count col_count with
      | some m => .ok { s2 with data := some m }
      | none => .error .valueError

/-- Result of `GridArray2D.to_xarray`: the coordinate values, data values,
units attribute and name actually placed on the `xr.DataArray` (the constant
attribute dictionaries `standard_name`/`long_name`/axis units are fixed
strings and are omitted). -/
structure XrDataArray where
  latitude : List Rat
  longitude : List Rat
  values : List (List Rat)
  units : String
  name : String
  deriving DecidableEq, Repr

/-- `GridArray2D.to_xarray`. Faithful to the source: the branch guarded by
`len(self.lons) > 0` assigns `lons = self.lats` (data.py line 190). Calling
it with `lats`, `lons` or `data` still `None` raises (`len(None)` is a
`TypeError`). -/
def GridArray2D.to_xarray (self : GridArray2D) : Except DecodeError XrDataArray :=
  match self.lats, self.lons, self.data with
  | some slats, some slons, some d =>
    let lats := if slats.length > 0 then slats
      else npLinspace self.start_lat self.end_lat self.lat_count
    let lons := if slons.length > 0 then slats
      else npLinspace self.start_lon self.end_lon self.lon_count
    .ok { latitude := lats
          longitude := lons
          values := d
          units := self.units
          name := self.user_element_name }
  | _, _, _ => .error .typeError

/-- Wire message `pb.FileInfo`. -/
structure PbFileInfo where
  fileName : String := ""
  savePath : String := ""
  suffix : String := ""
  size : String := ""
  fileUrl : String := ""
  imgBase64 : String := ""
  attributes : List String := []
  deriving DecidableEq, Repr

/-- Class `FileInfo` instance state. -/
structure FileInfo where
  file_name : String := ""
  save_path : String := ""
  suffix : String := ""
  size : String := ""
  file_url : String := ""
  image_base64 : String := ""
  attributes : Option (List String) := none
  deriving DecidableEq, Repr

/-- `FileInfo.create_from_protobuf`: verbatim field copy. -/
def FileInfo.create_from_protobuf (p : PbFileInfo) : FileInfo :=
  { file_name := p.fileName
    save_path := p.savePath
    suffix := p.suffix
    size := p.size
    file_url := p.fileUrl
    image_base64 := p.imgBase64
    attributes := some p.attributes }

/-- Wire message `pb.RetFilesInfo`. -/
structure PbRetFilesInfo where
  request : PbRequestInfo := {}
  fileInfos : List PbFileInfo := []
  deriving DecidableEq, Repr

/-- Class `FilesInfo` instance state. -/
structure FilesInfo where
  files_info : Option (List FileInfo) := none
  request : Option RequestInfo := none
  deriving DecidableEq, Repr

/-- `FilesInfo.load_from_protobuf_object`: metadata, error-code check, then
the manifest entries copied in wire order. This loader cannot raise. -/
def FilesInfo.load_from_protobuf_object (self : FilesInfo)
    (rf : PbRetFilesInfo) : FilesInfo :=
  let req := RequestInfo.create_from_protobuf rf.request
  let s1 : FilesInfo := { self with request := some req }
  if req.error_code ≠ 0 then
    s1
  else
    { s1 with files_info := some (rf.fileInfos.map FileInfo.create_from_protobuf) }

/-- Class `GridVector2D` instance state. -/
structure GridVector2D where
  u_data : Option (List (List Rat)) := none
  v_data : Option (List (List Rat)) := none
  request : Option RequestInfo := none
  start_lat : Rat := 0
  start_lon : Rat := 0
  end_lat : Rat := 0
  end_lon : Rat := 0
  lat_count : Nat := 0
  lon_count : Nat := 0
  lon_step : Rat := 0
  lat_step : Rat := 0
  lats : Option (List Rat) := none
  lons : Option (List Rat) := none
  u_element_name : String := ""
  v_element_name : String := ""
  deriving DecidableEq, Repr

/-- Wire message `pb.RetGridVector2D`. -/
structure PbRetGridVector2D where
  request : PbRequestInfo := {}
  startLat : Rat := 0
  startLon : Rat := 0
  endLat : Rat := 0
  endLon : Rat := 0
  latCount : Nat := 0
  lonCount : Nat := 0
  lonStep : Rat := 0
  latStep : Rat := 0
  lats : Option (List Rat) := none
  lons : Option (List Rat) := none
  u_EleName : String := ""
  v_EleName : String := ""
  u_datas : List Rat := []
  v_data2 : List Rat := []
  deriving DecidableEq, Repr

/-- `GridVector2D.load_from_protobuf_object`: metadata, error-code check,
geometry; `lats`/`lons` are copied verbatim from the wire (no synthesis
branch in this loader); both components are reshaped with the declared
`latCount`/`lonCount` directly. -/
def GridVector2D.load_from_protobuf_object (self : GridVector2D)
    (g : PbRetGridVector2D) : Except DecodeError GridVector2D :=
  let req := RequestInfo.create_from_protobuf g.request
  let s1 : GridVector2D := { self with request := some req }
  if req.error_code ≠ 0 then
    .ok s1
  else
    let s2 : GridVector2D := { s1 with
      start_lat := g.startLat
      start_lon := g.startLon
      end_lat := g.endLat
      end_lon := g.endLon
      lat_count := g.latCount
      lon_count := g.lonCount
      lon_step := g.lonStep
      lat_step := g.latStep
      lats := g.lats
      lons := g.lons
      u_element_name := g.u_EleName
      v_element_name := g.v_EleName }
    let row_count := g.latCount
    let col_count := g.lonCount
    match npReshape g.u_datas row_count col_count with
    | none => .error .valueError
    | some u =>
      match npReshape g.v_data2 row_count col_count with
      | none => .error .valueError
      | some v => .ok { s2 with u_data := some u, v_data := some v }

/-- Class `GridScalar2D` instance state. -/
structure GridScalar2D where
  data : Option (List (List Rat)) := none
  request : Option RequestInfo := none
  start_lat : Rat := 0
  start_lon : Rat := 0
  end_lat : Rat := 0
  end_lon : Rat := 0
  lat_count : Nat := 0
  lon_count : Nat := 0
  lon_step : Rat := 0
  lat_step : Rat := 0
  lats : Option (List Rat) := none
  lons : Option (List Rat) := none
  units : String := ""
  user_element_name : String := ""
  deriving DecidableEq, Repr

/-- Wire message `pb.RetGridScalar2D`. The `units` field is carried on the
wire but never read by the loader. -/
structure PbRetGridScalar2D where
  request : PbRequestInfo := {}
  startLat : Rat := 0
  startLon : Rat := 0
  endLat : Rat := 0
  endLon : Rat := 0
  latCount : Nat := 0
  lonCount : Nat := 0
  lonStep : Rat := 0
  latStep : Rat := 0
  lats : Option (List Rat) := none
  lons : Option (List Rat) := none
  units : String := ""
  userEleName : String := ""
  data : List Rat := []
  deriving DecidableEq, Repr

/-- `GridScalar2D.load_from_protobuf_object`: metadata, error-code check,
geometry; `lats`/`lons` copied verbatim; `units` is never assigned; the
payload is reshaped with the declared `latCount`/`lonCount` directly. -/
def GridScalar2D.load_from_protobuf_object (self : GridScalar2D)
    (g : PbRetGridScalar2D) : Except DecodeError GridScalar2D :=
  let req := RequestInfo.create_from_protobuf g.request
  let s1 : GridScalar2D := { self with request := some req }
  if req.error_code ≠ 0 then
    .ok s1
  else
    let s2 : GridScalar2D := { s1 with
      start_lat := g.startLat
      start_lon := g.startLon
      end_lat := g.endLat
      end_lon := g.endLon
      lat_count := g.latCount
      lon_count := g.lonCount
      lon_step := g.lonStep
      lat_step := g.latStep
      lats := g.lats
      lons := g.lons
      user_element_name := g.userEleName }
    let row_count := g.latCount
    let col_count := g.lonCount
    match npReshape g.data row_count col_count with
    | none => .error .valueError
    | some m => .ok { s2 with data := some m }

/-- The response-variant sum: one constructor per `ResponseData` subclass. -/
inductive DecodedResponse where
  | array2d (a : Array2D)
  | dataBlock (b : DataBlock)
  | gridArray2d (g : GridArray2D)
  | filesInfo (f : FilesInfo)
  | gridVector2d (v : GridVector2D)
  | gridScalar2d (s : GridScalar2D)
  deriving DecidableEq, Repr

/-- Result of `to_pandas`: `pd.DataFrame(self.data, columns=self.element_names)`. -/
structure PdDataFrame where
  columns : Option (List String)
  values : Option (List (List Rat))
  deriving DecidableEq, Repr

/-- Errors raised by the conversion facade (`raise NotImplementedError()` on
the `ResponseData` base class). -/
inductive ConversionError where
  | notImplementedError
  deriving DecidableEq, Repr

/-- The `to_pandas` facade: `Array2D` overrides it with the dataframe wrap;
every other variant inherits the base-class `NotImplementedError`. -/
def ResponseData.to_pandas : DecodedResponse → Except ConversionError PdDataFrame
  | .array2d a => .ok { columns := a.element_names, values := a.data }
  | _ => .error .notImplementedError

/-- Example wire message: a well-formed `RetArray2D` (3 rows, 12 values,
declared column count 4). -/
def exRa : PbRetArray2D :=
  { request := { rowCount := 3, colCount := 4 }
    elementNames := ["p", "t", "u", "v"]
    data := [1, 2, 3, 4, 5, 6, 7, 8, 9, 10, 11, 12] }

/-- Example wire message: a `RetArray2D` whose declared column count (5)
disagrees with the derived one (12 / 3 = 4). -/
def exRaBad : PbRetArray2D :=
  { request := { rowCount := 3, colCount := 5 }
    elementNames := ["p", "t", "u", "v"]
    data := [1, 2, 3, 4, 5, 6, 7, 8, 9, 10, 11, 12] }

/-- Example wire message: a `RetGridArray2D` whose declared column count (5)
disagrees with the derived one (12 / 3 = 4), error-free metadata. -/
def exGaBad : PbRetGridArray2D :=
  { request := { rowCount := 3, colCount := 5 }
    latCount := 3
    lonCount := 4
    data := [1, 2, 3, 4, 5, 6, 7, 8, 9, 10, 11, 12] }

/-- Example wire message: a `RetGridArray2D` with error-free metadata whose
flat length (12) is not divisible by the declared row count (5). -/
def exGaIndiv : PbRetGridArray2D :=
  { request := { rowCount := 5, colCount := 2 }
    latCount := 5
    lonCount := 2
    data := [1, 2, 3, 4, 5, 6, 7, 8, 9, 10, 11, 12] }

/-- Example wire message: a failed `RetGridArray2D` (error_code 500) whose
buffer still carries payload bytes. -/
def exGaErr : PbRetGridArray2D :=
  { request := { errorCode := 500, errorMessage := "invalid params", rowCount := 2 }
    latCount := 2
    lonCount := 2
    lats := some [1, 2]
    lons := some [3, 4]
    units := "K"
    userEleName := "TEM"
    data := [1, 2, 3, 4] }

/-- Example wire message: a failed `RetFilesInfo` (error_code 500) that still
carries a manifest entry. -/
def exFiErr : PbRetFilesInfo :=
  { request := { errorCode := 500, errorMessage := "invalid params" }
    fileInfos := [{ fileName := "a.nc", savePath := "/tmp/a.nc" }] }

/-- Example wire message: a failed `RetGridVector2D` (error_code 500) that
still carries component payloads. -/
def exGvErr : PbRetGridVector2D :=
  { request := { errorCode := 500 }
    latCount := 1
    lonCount := 2
    u_datas := [1, 2]
    v_data2 := [3, 4] }

/-- Example wire message: a failed `RetGridScalar2D` (error_code 500) that
still carries a payload. -/
def exGsErr : PbRetGridScalar2D :=
  { request := { errorCode := 500 }
    latCount := 1
    lonCount := 2
    units := "degC"
    data := [1, 2] }

/-- Example wire message: a failed `RetArray2D` (error_code 500) that still
carries element names and payload values. -/
def exRaErr : PbRetArray2D :=
  { request := { errorCode := 500, errorMessage := "invalid params", rowCount := 1, colCount := 2 }
    elementNames := ["p", "t"]
    data := [7, 8] }

/-- Example wire message: a failed `RetDataBlock` (error_code 500) that still
carries a name and bytes. -/
def exDbErr : PbRetDataBlock :=
  { request := { errorCode := 500, errorMessage := "invalid params" }
    dataName := "blob"
    byteArray := [1, 2, 3] }

/-- Example wire message: a `RetGridArray2D` with both axis lists absent, so
the loader must synthesize both axes (lat: 10 + i/2 for 3 rows; lon:
100 + 2i for 2 columns). -/
def exGaSynth : PbRetGridArray2D :=
  { request := { rowCount := 3, colCount := 2 }
    startLat := 10
    startLon := 100
    endLat := 11
    endLon := 102
    latCount := 3
    lonCount := 2
    latStep := 1/2
    lonStep := 2
    lats := none
    lons := none
    units := "m"
    userEleName := "GH"
    data := [1, 2, 3, 4, 5, 6] }

/-- Example wire message: a `RetGridVector2D` whose axis fields are absent;
the loader copies them verbatim, so no 2-element lat axis is synthesized
although latCount = 2. -/
def exGvAbsent : PbRetGridVector2D :=
  { request := {}
    startLat := 0
    latStep := 1
    latCount := 2
    lonCount := 1
    lats := none
    lons := none
    u_datas := [1, 2]
    v_data2 := [3, 4] }

/-- Example wire message: a consistent `RetGridVector2D` (2 x 3 components). -/
def exGvOk : PbRetGridVector2D :=
  { request := {}
    latCount := 2
    lonCount := 3
    lats := some [0, 5]
    lons := some [0, 5, 10]
    u_EleName := "U"
    v_EleName := "V"
    u_datas := [1, 2, 3, 4, 5, 6]
    v_data2 := [7, 8, 9, 10, 11, 12] }

/-- Example wire message: a `RetGridVector2D` whose u component has 5 values
although latCount * lonCount = 6. -/
def exGvBadU : PbRetGridVector2D :=
  { request := {}
    latCount := 2
    lonCount := 3
    u_datas := [1, 2, 3, 4, 5]
    v_data2 := [7, 8, 9, 10, 11, 12] }

/-- Example loaded `GridArray2D` with distinct, non-empty explicit axis
lists, for exercising `to_xarray`. -/
def exGridLoaded : GridArray2D :=
  { data := some [[5, 5, 5], [6, 6, 6]]
    request := some {}
    lat_count := 2
    lon_count := 3
    lats := some [1, 2]
    lons := some [10, 20, 30]
    units := "K"
    user_element_name := "TEM" }

/-- Example wire message: an error-free `RetGridArray2D` whose declared
latCount/lonCount (7/9) bear no relation to the payload shape, which is
driven by rowCount = 3 and the 6 payload values alone. -/
def exGa7 : PbRetGridArray2D :=
  { request := { rowCount := 3, colCount := 2 }
    latCount := 7
    lonCount := 9
    lats := some [0, 1, 2]
    lons := some [5, 6]
    units := "m"
    userEleName := "GH"
    data := [1, 2, 3, 4, 5, 6] }

/-- The value `GridArray2D.load_from_protobuf_object {} exGa7` evaluates to. -/
def exGa7Decoded : GridArray2D :=
  { data := some [[1, 2], [3, 4], [5, 6]]
    request := some { row_count := 3, col_count := 2 }
    lat_count := 7
    lon_count := 9
    lats := some [0, 1, 2]
    lons := some [5, 6]
    units := "m"
    user_element_name := "GH" }

/-- Example wire message: an error-free `RetGridScalar2D` whose wire `units`
field carries a value ("degC"). -/
def exGs10 : PbRetGridScalar2D :=
  { request := { rowCount := 2, colCount := 2 }
    startLat := 10
    startLon := 30
    endLat := 20
    endLon := 40
    latCount := 2
    lonCount := 2
    latStep := 10
    lonStep := 10
    lats := some [10, 20]
    lons := some [30, 40]
    units := "degC"
    userEleName := "TEM"
    data := [1, 2, 3, 4] }

/-- The value `GridScalar2D.load_from_protobuf_object {} exGs10` evaluates
to; note `units` stays at the constructor default. -/
def exGs10Decoded : GridScalar2D :=
  { data := some [[1, 2], [3, 4]]
    request := some { row_count := 2, col_count := 2 }
    start_lat := 10
    start_lon := 30
    end_lat := 20
    end_lon := 40
    lat_count := 2
    lon_count := 2
    lat_step := 10
    lon_step := 10
    lats := some [10, 20]
    lons := some [30, 40]
    units := ""
    user_element_name := "TEM" }

/-- Example wire message: a `RetGridArray2D` with the lats field absent but
an explicit lons list present, error-free metadata. -/
def exGaMixed : PbRetGridArray2D :=
  { request := { rowCount := 3, colCount := 2 }
    startLat := 10
    startLon := 100
    latCount := 3
    lonCount := 2
    latStep := 1/2
    lonStep := 2
    lats := none
    lons := some [100, 102]
    data := [1, 2, 3, 4, 5, 6] }

theorem chunkRows_length {α : Type} (r c : Nat) (xs : List α) :
    (chunkRows r c xs).length = r := by
  induction r generalizing xs with
  | zero => rfl
  | succ r ih => simp [chunkRows, ih]

theorem chunkRows_row_length {α : Type} (r c : Nat) (xs : List α)
    (h : xs.length = r * c) : ∀ row ∈ chunkRows r c xs, row.length = c := by
  induction r generalizing xs with
  | zero => intro row hrow; simp [chunkRows] at hrow
  | succ r ih =>
    intro row hrow
    rw [chunkRows] at hrow
    rcases List.mem_cons.mp hrow with h1 | h2
    · subst h1
      rw [List.length_take, h, Nat.succ_mul]
      omega
    · exact ih (xs.drop c) (by rw [List.length_drop, h, Nat.succ_mul]; omega) row h2

theorem chunkRows_flatten {α : Type} (r c : Nat) (xs : List α)
    (h : xs.length = r * c) : (chunkRows r c xs).flatten = xs := by
  induction r generalizing xs with
  | zero =>
    rw [Nat.zero_mul] at h
    rw [List.length_eq_zero.mp h]
    rfl
  | succ r ih =>
    rw [chunkRows, List.flatten_cons,
      ih (xs.drop c) (by rw [List.length_drop, h, Nat.succ_mul]; omega),
      List.take_append_drop]

theorem chunkRows_getD {α : Type} (r c i j : Nat) (xs : List α) (d : α)
    (h : xs.length = r * c) (hi : i < r) (hj : j < c) :
    ((chunkRows r c xs).getD i []).getD j d = xs.getD (i * c + j) d := by
  induction r generalizing xs i with
  | zero => omega
  | succ r ih =>
    cases i with
    | zero =>
      rw [chunkRows, List.getD_cons_zero, Nat.zero_mul, Nat.zero_add,
        List.getD_eq_getElem?_getD, List.getD_eq_getElem?_getD,
        List.getElem?_take, if_pos hj]
    | succ i =>
      rw [chunkRows, List.getD_cons_succ,
        ih i (xs.drop c) (by rw [List.length_drop, h, Nat.succ_mul]; omega)
          (by omega)]
      rw [List.getD_eq_getElem?_getD, List.getD_eq_getElem?_getD,
        List.getElem?_drop]
      have harith : c + (i * c + j) = (i + 1) * c + j := by ring
      rw [harith]

theorem synthAxis_length (start step : Rat) (n : Nat) :
    (synthAxis start step n).length = n := by
  simp [synthAxis]

theorem synthAxis_getD (start step : Rat) (n i : Nat) (h : i < n) (d : Rat) :
    (synthAxis start step n).getD i d = start + (i : Rat) * step := by
  rw [synthAxis, List.getD_eq_getElem?_getD, List.getElem?_map,
    List.getElem?_range h]
  rfl

/-- Claim C4: for every flat numeric sequence of length N and row count R
dividing N evenly, the reshape into (R, N/R) succeeds, is row-major —
element (r, c) equals flat[r*C + c] with C = N/R — and flattening the
reshaped grid back row-major reproduces the original sequence exactly. -/
theorem c4_reshape_row_major_roundtrip (xs : List Rat) (R i j : Nat) (d : Rat)
    (hdvd : R ∣ xs.length) (hi : i < R) (hj : j < xs.length / R) :
    ∃ m, npReshape xs R (xs.length / R) = some m ∧
      (m.getD i []).getD j d = xs.getD (i * (xs.length / R) + j) d ∧
      m.flatten = xs := by
  have hlen : xs.length = R * (xs.length / R) := (Nat.mul_div_cancel' hdvd).symm
  refine ⟨chunkRows R (xs.length / R) xs, ?_, ?_, ?_⟩
  · rw [npReshape, if_pos hlen]
  · exact chunkRows_getD R (xs.length / R) i j xs d hlen hi hj
  · exact chunkRows_flatten R (xs.length / R) xs hlen

/-- Witness for C4 at xs = [3,1,4,1,5,9], R = 2 (so C = 3), i = 1, j = 2. -/
theorem c4_reshape_row_major_roundtrip_witness :
    (2 : Nat) ∣ ([3, 1, 4, 1, 5, 9] : List Rat).length ∧
    (1 : Nat) < 2 ∧ (2 : Nat) < ([3, 1, 4, 1, 5, 9] : List Rat).length / 2 ∧
    ∃ m, npReshape ([3, 1, 4, 1, 5, 9] : List Rat) 2
        (([3, 1, 4, 1, 5, 9] : List Rat).length / 2) = some m ∧
      (m.getD 1 []).getD 2 0 =
        ([3, 1, 4, 1, 5, 9] : List Rat).getD
          (1 * (([3, 1, 4, 1, 5, 9] : List Rat).length / 2) + 2) 0 ∧
      m.flatten = [3, 1, 4, 1, 5, 9] :=
  ⟨by decide, by decide, by decide,
    c4_reshape_row_major_roundtrip [3, 1, 4, 1, 5, 9] 2 1 2 0
      (by decide) (by decide) (by decide)⟩

/-- Claim C2 (confirmed): in an error-free `Array2D` decode the column count
is derived as flat length / declared row count (integer division) — never
read from the declared column count — and the derived value is asserted
equal to the declared one; a mismatch makes the decode fail. -/
theorem c2_array2d_derived_col (ra : PbRetArray2D) (h : ra.request.errorCode = 0) :
    (∀ a, Array2D.load_from_protobuf_object {} ra = .ok a →
        a.col_count = ra.data.length / ra.request.rowCount ∧
        a.col_count = ra.request.colCount) ∧
    (ra.data.length / ra.request.rowCount ≠ ra.request.colCount →
        exceptIsOk (Array2D.load_from_protobuf_object {} ra) = false) := by
  have hne : ¬ (RequestInfo.create_from_protobuf ra.request).error_code ≠ 0 := by
    simp [RequestInfo.create_from_protobuf, h]
  constructor
  · intro a ha
    rw [Array2D.load_from_protobuf_object, if_neg hne] at ha
    dsimp only at ha
    split at ha
    · exact absurd ha (by simp)
    · split at ha
      · split at ha
        · cases ha
          exact ⟨rfl, by assumption⟩
        · exact absurd ha (by simp)
      · exact absurd ha (by simp)
  · intro hcc
    rw [Array2D.load_from_protobuf_object, if_neg hne]
    dsimp only
    split
    · rfl
    · rfl

/-- Witness for C2: the consistent message exRa (12 values, 3 rows, declared
4 columns) decodes with derived column count 4; the inconsistent exRaBad
(declared 5 columns) fails. -/
theorem c2_array2d_derived_col_witness :
    (∃ a, Array2D.load_from_protobuf_object {} exRa = .ok a ∧
        a.col_count = exRa.data.length / exRa.request.rowCount ∧
        a.col_count = exRa.request.colCount) ∧
    exceptIsOk (Array2D.load_from_protobuf_object {} exRaBad) = false := by
  constructor
  · refine ⟨_, rfl, ?_⟩
    exact (c2_array2d_derived_col exRa (by decide)).1 _ rfl
  · exact (c2_array2d_derived_col exRaBad (by decide)).2 (by decide)

/-- Claim C1 (amended): the grid, files and vector loaders return
immediately after metadata when error_code is nonzero, leaving every
payload field at its default; but `Array2D` populates `element_names`
before the error-code check, and `DataBlock` has no error-code check at all
and always copies its name and bytes. -/
theorem c1_amended_error_short_circuit :
    (∀ g : PbRetGridArray2D, g.request.errorCode ≠ 0 →
      GridArray2D.load_from_protobuf_object {} g =
        .ok { request := some (RequestInfo.create_from_protobuf g.request) }) ∧
    (∀ rf : PbRetFilesInfo, rf.request.errorCode ≠ 0 →
      FilesInfo.load_from_protobuf_object {} rf =
        { request := some (RequestInfo.create_from_protobuf rf.request) }) ∧
    (∀ gv : PbRetGridVector2D, gv.request.errorCode ≠ 0 →
      GridVector2D.load_from_protobuf_object {} gv =
        .ok { request := some (RequestInfo.create_from_protobuf gv.request) }) ∧
    (∀ gs : PbRetGridScalar2D, gs.request.errorCode ≠ 0 →
      GridScalar2D.load_from_protobuf_object {} gs =
        .ok { request := some (RequestInfo.create_from_protobuf gs.request) }) ∧
    (∀ ra : PbRetArray2D, ra.request.errorCode ≠ 0 →
      Array2D.load_from_protobuf_object {} ra =
        .ok { request := some (RequestInfo.create_from_protobuf ra.request)
              element_names := some ra.elementNames }) ∧
    (∀ rb : PbRetDataBlock,
      DataBlock.load_from_protobuf_object {} rb =
        { request := some (RequestInfo.create_from_protobuf rb.request)
          data_name := some rb.dataName
          data := some rb.byteArray }) := by
  refine ⟨?_, ?_, ?_, ?_, ?_, ?_⟩
  · intro g hg
    rw [GridArray2D.load_from_protobuf_object,
      if_pos (by simp [RequestInfo.create_from_protobuf, hg])]
  · intro rf hf
    rw [FilesInfo.load_from_protobuf_object]
    dsimp only
    rw [if_pos (by simp [RequestInfo.create_from_protobuf, hf])]
  · intro gv hv
    rw [GridVector2D.load_from_protobuf_object,
      if_pos (by simp [RequestInfo.create_from_protobuf, hv])]
  · intro gs hs
    rw [GridScalar2D.load_from_protobuf_object,
      if_pos (by simp [RequestInfo.create_from_protobuf, hs])]
  · intro ra hr
    rw [Array2D.load_from_protobuf_object,
      if_pos (by simp [RequestInfo.create_from_protobuf, hr])]
  · intro rb
    rfl

/-- Counterexample to C1 as stated: `DataBlock` decoding a response with
error_code 500 still populates its payload fields (data bytes and name),
so payload fields do not all remain at their defaults. -/
theorem c1_counterexample_datablock_not_short_circuited :
    exDbErr.request.errorCode = 500 ∧
    (DataBlock.load_from_protobuf_object {} exDbErr).data = some [1, 2, 3] ∧
    (DataBlock.load_from_protobuf_object {} exDbErr).data_name = some "blob" ∧
    ({} : DataBlock).data = none :=
  ⟨rfl, rfl, rfl, rfl⟩

/-- Witness for C1 (amended) at concrete error-code-500 messages that all
carry payload bytes. -/
theorem c1_amended_error_short_circuit_witness :
    GridArray2D.load_from_protobuf_object {} exGaErr =
      .ok { request := some (RequestInfo.create_from_protobuf exGaErr.request) } ∧
    FilesInfo.load_from_protobuf_object {} exFiErr =
      { request := some (RequestInfo.create_from_protobuf exFiErr.request) } ∧
    GridVector2D.load_from_protobuf_object {} exGvErr =
      .ok { request := some (RequestInfo.create_from_protobuf exGvErr.request) } ∧
    GridScalar2D.load_from_protobuf_object {} exGsErr =
      .ok { request := some (RequestInfo.create_from_protobuf exGsErr.request) } ∧
    Array2D.load_from_protobuf_object {} exRaErr =
      .ok { request := some (RequestInfo.create_from_protobuf exRaErr.request)
            element_names := some exRaErr.elementNames } ∧
    DataBlock.load_from_protobuf_object {} exDbErr =
      { request := some (RequestInfo.create_from_protobuf exDbErr.request)
        data_name := some exDbErr.dataName
        data := some exDbErr.byteArray } :=
  ⟨c1_amended_error_short_circuit.1 exGaErr (by decide),
   c1_amended_error_short_circuit.2.1 exFiErr (by decide),
   c1_amended_error_short_circuit.2.2.1 exGvErr (by decide),
   c1_amended_error_short_circuit.2.2.2.1 exGsErr (by decide),
   c1_amended_error_short_circuit.2.2.2.2.1 exRaErr (by decide),
   c1_amended_error_short_circuit.2.2.2.2.2 exDbErr⟩

/-- Claim C3 (amended): in `Array2D`, reshaping fails whenever the flat
length is not evenly divisible by the row count or the declared column
count disagrees with the derived one; in `GridArray2D`, reshaping fails
whenever the flat length is not evenly divisible by the row count, but the
declared column count is ignored (no assertion). -/
theorem c3_amended_shape_failures :
    (∀ ra : PbRetArray2D, ra.request.errorCode = 0 →
      (ra.data.length % ra.request.rowCount ≠ 0 ∨
       ra.data.length / ra.request.rowCount ≠ ra.request.colCount) →
      exceptIsOk (Array2D.load_from_protobuf_object {} ra) = false) ∧
    (∀ g : PbRetGridArray2D, g.request.errorCode = 0 →
      g.data.length % g.request.rowCount ≠ 0 →
      exceptIsOk (GridArray2D.load_from_protobuf_object {} g) = false) := by
  constructor
  · intro ra h hbad
    have hne : ¬ (RequestInfo.create_from_protobuf ra.request).error_code ≠ 0 := by
      simp [RequestInfo.create_from_protobuf, h]
    rw [Array2D.load_from_protobuf_object, if_neg hne]
    dsimp only
    split
    · rfl
    · rename_i h0
      split
      · rename_i hcol
        rcases hbad with hmod | hdecl
        · have h1 : ¬ (ra.data.length =
              ra.request.rowCount * (ra.data.length / ra.request.rowCount)) := by
            intro heq
            exact hmod (Nat.mod_eq_zero_of_dvd
              ⟨ra.data.length / ra.request.rowCount, heq⟩)
          rw [npReshape, if_neg h1]
          rfl
        · exact absurd hcol hdecl
      · rfl
  · intro g h hmod
    have hne : ¬ (RequestInfo.create_from_protobuf g.request).error_code ≠ 0 := by
      simp [RequestInfo.create_from_protobuf, h]
    rw [GridArray2D.load_from_protobuf_object, if_neg hne]
    dsimp only [RequestInfo.create_from_protobuf]
    split
    · rfl
    · rename_i h0
      have h1 : ¬ (g.data.length =
          g.request.rowCount * (g.data.length / g.request.rowCount)) := by
        intro heq
        exact hmod (Nat.mod_eq_zero_of_dvd
          ⟨g.data.length / g.request.rowCount, heq⟩)
      rw [npReshape, if_neg h1]
      rfl

/-- Counterexample to C3 as stated: `GridArray2D` decodes exGaBad (12
values, row count 3, declared column count 5) successfully — the declared
column count disagreeing with the derived one (4) does not make the
reshape fail in that loader. -/
theorem c3_counterexample_gridarray_ignores_declared_col :
    exGaBad.request.colCount = 5 ∧
    exGaBad.data.length / exGaBad.request.rowCount = 4 ∧
    exceptIsOk (GridArray2D.load_from_protobuf_object {} exGaBad) = true :=
  ⟨rfl, rfl, rfl⟩

/-- Witness for C3 (amended): the declared-column mismatch exRaBad makes
the `Array2D` decode fail, and the non-divisible exGaIndiv (12 values, 5
rows) makes the `GridArray2D` decode fail. -/
theorem c3_amended_shape_failures_witness :
    exceptIsOk (Array2D.load_from_protobuf_object {} exRaBad) = false ∧
    exceptIsOk (GridArray2D.load_from_protobuf_object {} exGaIndiv) = false :=
  ⟨c3_amended_shape_failures.1 exRaBad (by decide) (Or.inr (by decide)),
   c3_amended_shape_failures.2 exGaIndiv (by decide) (by decide)⟩

/-- Claim C5 (amended): only `GridArray2D` synthesizes an absent coordinate
axis, and it handles each axis independently: whenever the lats (resp.
lons) field is absent, the decoded axis is exactly count elements with
axis[i] = start + i*step (so axis[0] = start and every adjacent difference
equals step, exactly over rationals), whatever the other axis field holds;
`GridVector2D` and `GridScalar2D` never synthesize — they copy the axis
fields verbatim even when absent. -/
theorem c5_amended_axis_synthesis :
    (∀ (g : PbRetGridArray2D) (a : GridArray2D), g.request.errorCode = 0 →
      g.lats = none →
      GridArray2D.load_from_protobuf_object {} g = .ok a →
      a.lats = some (synthAxis g.startLat g.latStep g.latCount)) ∧
    (∀ (g : PbRetGridArray2D) (a : GridArray2D), g.request.errorCode = 0 →
      g.lons = none →
      GridArray2D.load_from_protobuf_object {} g = .ok a →
      a.lons = some (synthAxis g.startLon g.lonStep g.lonCount)) ∧
    (∀ (start step : Rat) (n : Nat),
      (synthAxis start step n).length = n ∧
      (∀ i, i < n → (synthAxis start step n).getD i 0 = start + (i : Rat) * step) ∧
      (∀ i, i + 1 < n →
        (synthAxis start step n).getD (i + 1) 0 -
          (synthAxis start step n).getD i 0 = step)) ∧
    (∀ (gv : PbRetGridVector2D) (a : GridVector2D), gv.request.errorCode = 0 →
      GridVector2D.load_from_protobuf_object {} gv = .ok a →
      a.lats = gv.lats ∧ a.lons = gv.lons) ∧
    (∀ (gs : PbRetGridScalar2D) (a : GridScalar2D), gs.request.errorCode = 0 →
      GridScalar2D.load_from_protobuf_object {} gs = .ok a →
      a.lats = gs.lats ∧ a.lons = gs.lons) := by
  refine ⟨?_, ?_, ?_, ?_, ?_⟩
  · intro g a h hla hok
    have hne : ¬ (RequestInfo.create_from_protobuf g.request).error_code ≠ 0 := by
      simp [RequestInfo.create_from_protobuf, h]
    rw [GridArray2D.load_from_protobuf_object, if_neg hne] at hok
    dsimp only at hok
    split at hok
    · exact absurd hok (by simp)
    · split at hok
      · cases hok
        simp [hla]
      · exact absurd hok (by simp)
  · intro g a h hlo hok
    have hne : ¬ (RequestInfo.create_from_protobuf g.request).error_code ≠ 0 := by
      simp [RequestInfo.create_from_protobuf, h]
    rw [GridArray2D.load_from_protobuf_object, if_neg hne] at hok
    dsimp only at hok
    split at hok
    · exact absurd hok (by simp)
    · split at hok
      · cases hok
        simp [hlo]
      · exact absurd hok (by simp)
  · intro start step n
    refine ⟨synthAxis_length start step n,
      fun i hi => synthAxis_getD start step n i hi 0,
      fun i hi => ?_⟩
    rw [synthAxis_getD start step n (i + 1) hi 0,
      synthAxis_getD start step n i (by omega) 0]
    push_cast
    ring
  · intro gv a h hok
    have hne : ¬ (RequestInfo.create_from_protobuf gv.request).error_code ≠ 0 := by
      simp [RequestInfo.create_from_protobuf, h]
    rw [GridVector2D.load_from_protobuf_object, if_neg hne] at hok
    dsimp only at hok
    split at hok
    · exact absurd hok (by simp)
    · split at hok
      · exact absurd hok (by simp)
      · cases hok
        exact ⟨rfl, rfl⟩
  · intro gs a h hok
    have hne : ¬ (RequestInfo.create_from_protobuf gs.request).error_code ≠ 0 := by
      simp [RequestInfo.create_from_protobuf, h]
    rw [GridScalar2D.load_from_protobuf_object, if_neg hne] at hok
    dsimp only at hok
    split at hok
    · exact absurd hok (by simp)
    · cases hok
      exact ⟨rfl, rfl⟩

/-- Counterexample to C5 as stated: `GridVector2D` decoding exGvAbsent
(absent lats, latCount = 2, startLat = 0, latStep = 1) succeeds with the
lats field left unpopulated, not the 2-element synthesized axis [0, 1]. -/
theorem c5_counterexample_gridvector_never_synthesizes :
    exGvAbsent.lats = none ∧ exGvAbsent.latCount = 2 ∧
    (GridVector2D.load_from_protobuf_object {} exGvAbsent).map (fun r => r.lats) =
      .ok none ∧
    synthAxis 0 1 2 = [0, 1] ∧
    (none : Option (List Rat)) ≠ some [0, 1] :=
  ⟨rfl, rfl, rfl, by simp [synthAxis, List.range_succ], by decide⟩

/-- Witness for C5 (amended): exGaSynth has both axis fields absent and
decodes to the two synthesized axes; exGaMixed has only lats absent (lons
explicit) and still decodes to the synthesized lat axis; exGvOk and exGs10
decode with their wire axis fields copied verbatim; synthAxis 10 (1/2) 3
has length 3, element 1 equal to 10 + 1*(1/2), and adjacent difference
1/2. -/
theorem c5_amended_axis_synthesis_witness :
    (∃ a, GridArray2D.load_from_protobuf_object {} exGaSynth = .ok a ∧
      a.lats = some (synthAxis exGaSynth.startLat exGaSynth.latStep exGaSynth.latCount) ∧
      a.lons = some (synthAxis exGaSynth.startLon exGaSynth.lonStep exGaSynth.lonCount)) ∧
    (∃ a, GridArray2D.load_from_protobuf_object {} exGaMixed = .ok a ∧
      a.lats = some (synthAxis exGaMixed.startLat exGaMixed.latStep exGaMixed.latCount)) ∧
    (synthAxis 10 (1/2) 3).length = 3 ∧
    (synthAxis 10 (1/2) 3).getD 1 0 = 10 + (1 : Rat) * (1/2) ∧
    (synthAxis 10 (1/2) 3).getD 1 0 - (synthAxis 10 (1/2) 3).getD 0 0 = 1/2 ∧
    (∃ a, GridVector2D.load_from_protobuf_object {} exGvOk = .ok a ∧
      a.lats = exGvOk.lats ∧ a.lons = exGvOk.lons) ∧
    (∃ a, GridScalar2D.load_from_protobuf_object {} exGs10 = .ok a ∧
      a.lats = exGs10.lats ∧ a.lons = exGs10.lons) :=
  ⟨⟨_, rfl, c5_amended_axis_synthesis.1 exGaSynth _ (by decide) rfl rfl,
    c5_amended_axis_synthesis.2.1 exGaSynth _ (by decide) rfl rfl⟩,
   ⟨_, rfl, c5_amended_axis_synthesis.1 exGaMixed _ (by decide) rfl rfl⟩,
   (c5_amended_axis_synthesis.2.2.1 10 (1/2) 3).1,
   (c5_amended_axis_synthesis.2.2.1 10 (1/2) 3).2.1 1 (by decide),
   (c5_amended_axis_synthesis.2.2.1 10 (1/2) 3).2.2 0 (by decide),
   ⟨_, rfl, c5_amended_axis_synthesis.2.2.2.1 exGvOk _ (by decide) rfl⟩,
   ⟨_, rfl, c5_amended_axis_synthesis.2.2.2.2 exGs10 _ (by decide) rfl⟩⟩

/-- Inversion for a successful numpy reshape: the flat length matched r * c
and the result is the row-major chunking. -/
theorem npReshape_eq_some {α : Type} {xs : List α} {r c : Nat} {m : List (List α)}
    (h : npReshape xs r c = some m) :
    xs.length = r * c ∧ m = chunkRows r c xs := by
  rw [npReshape] at h
  split at h
  · cases h
    constructor
    · assumption
    · rfl
  · exact absurd h (by simp)

/-- Claim C6 (code bug): evaluating `to_xarray` on a grid with non-empty
explicit lats [1, 2] and lons [10, 20, 30] shows the longitude axis is
taken from the latitude list (data.py line 190: lons = self.lats), not
returned unchanged from the lons field. -/
theorem c6_bug_to_xarray_longitude_from_lats :
    exGridLoaded.lats = some [1, 2] ∧
    exGridLoaded.lons = some [10, 20, 30] ∧
    (GridArray2D.to_xarray exGridLoaded).map (fun f => f.longitude) = .ok [1, 2] ∧
    (GridArray2D.to_xarray exGridLoaded).map (fun f => f.latitude) = .ok [1, 2] ∧
    ([1, 2] : List Rat) ≠ [10, 20, 30] :=
  ⟨rfl, rfl, rfl, rfl, by decide⟩

/-- Claim C7 (confirmed): in an error-free `GridArray2D` decode the data
grid has exactly request.rowCount rows, each of length
len(data) / request.rowCount — a shape fully determined by the metadata
row count and the payload length, for every value of the declared
latCount/lonCount. -/
theorem c7_gridarray_reshape_uses_row_count (g : PbRetGridArray2D) (a : GridArray2D)
    (h : g.request.errorCode = 0)
    (hok : GridArray2D.load_from_protobuf_object {} g = .ok a) :
    a.request = some (RequestInfo.create_from_protobuf g.request) ∧
    ∃ m, a.data = some m ∧ m.length = g.request.rowCount ∧
      ∀ row ∈ m, row.length = g.data.length / g.request.rowCount := by
  have hne : ¬ (RequestInfo.create_from_protobuf g.request).error_code ≠ 0 := by
    simp [RequestInfo.create_from_protobuf, h]
  rw [GridArray2D.load_from_protobuf_object, if_neg hne] at hok
  dsimp only at hok
  split at hok
  · exact absurd hok (by simp)
  · split at hok
    · rename_i m heq
      cases hok
      have hm := npReshape_eq_some heq
      refine ⟨rfl, m, rfl, ?_, ?_⟩
      · rw [hm.2]
        exact chunkRows_length _ _ _
      · rw [hm.2]
        exact chunkRows_row_length _ _ _ hm.1
    · exact absurd hok (by simp)

/-- Witness for C7 at exGa7, whose declared latCount/lonCount (7/9) are
unrelated to the decoded (3, 2) shape. -/
theorem c7_gridarray_reshape_uses_row_count_witness :
    exGa7.request.errorCode = 0 ∧
    GridArray2D.load_from_protobuf_object {} exGa7 = .ok exGa7Decoded ∧
    (exGa7Decoded.request = some (RequestInfo.create_from_protobuf exGa7.request) ∧
     ∃ m, exGa7Decoded.data = some m ∧ m.length = exGa7.request.rowCount ∧
       ∀ row ∈ m, row.length = exGa7.data.length / exGa7.request.rowCount) :=
  ⟨rfl, rfl, c7_gridarray_reshape_uses_row_count exGa7 exGa7Decoded rfl rfl⟩

/-- Claim C8 (confirmed): an error-free `GridVector2D` decode reshapes both
components into (latCount, lonCount) using the declared counts directly,
succeeding only when each component has exactly latCount * lonCount
values; a u component of the wrong length makes the decode fail. -/
theorem c8_vectorgrid_uses_declared_counts (gv : PbRetGridVector2D)
    (h : gv.request.errorCode = 0) :
    (∀ a, GridVector2D.load_from_protobuf_object {} gv = .ok a →
      gv.u_datas.length = gv.latCount * gv.lonCount ∧
      gv.v_data2.length = gv.latCount * gv.lonCount ∧
      ∃ u v, a.u_data = some u ∧ a.v_data = some v ∧
        u.length = gv.latCount ∧ (∀ row ∈ u, row.length = gv.lonCount) ∧
        v.length = gv.latCount ∧ (∀ row ∈ v, row.length = gv.lonCount)) ∧
    (gv.u_datas.length ≠ gv.latCount * gv.lonCount →
      exceptIsOk (GridVector2D.load_from_protobuf_object {} gv) = false) := by
  have hne : ¬ (RequestInfo.create_from_protobuf gv.request).error_code ≠ 0 := by
    simp [RequestInfo.create_from_protobuf, h]
  constructor
  · intro a hok
    rw [GridVector2D.load_from_protobuf_object, if_neg hne] at hok
    dsimp only at hok
    split at hok
    · exact absurd hok (by simp)
    · rename_i u hu
      split at hok
      · exact absurd hok (by simp)
      · rename_i v hv
        cases hok
        have hmu := npReshape_eq_some hu
        have hmv := npReshape_eq_some hv
        refine ⟨hmu.1, hmv.1, u, v, rfl, rfl, ?_, ?_, ?_, ?_⟩
        · rw [hmu.2]
          exact chunkRows_length _ _ _
        · rw [hmu.2]
          exact chunkRows_row_length _ _ _ hmu.1
        · rw [hmv.2]
          exact chunkRows_length _ _ _
        · rw [hmv.2]
          exact chunkRows_row_length _ _ _ hmv.1
  · intro hlen
    rw [GridVector2D.load_from_protobuf_object, if_neg hne]
    dsimp only
    split
    · rfl
    · rename_i u hu
      exact absurd (npReshape_eq_some hu).1 hlen

/-- Witness for C8: exGvOk (2 x 3, both components of 6 values) decodes to
(2, 3) grids; exGvBadU (u component of 5 values) fails. -/
theorem c8_vectorgrid_uses_declared_counts_witness :
    (∃ a, GridVector2D.load_from_protobuf_object {} exGvOk = .ok a ∧
      (exGvOk.u_datas.length = exGvOk.latCount * exGvOk.lonCount ∧
       exGvOk.v_data2.length = exGvOk.latCount * exGvOk.lonCount ∧
       ∃ u v, a.u_data = some u ∧ a.v_data = some v ∧
         u.length = exGvOk.latCount ∧ (∀ row ∈ u, row.length = exGvOk.lonCount) ∧
         v.length = exGvOk.latCount ∧ (∀ row ∈ v, row.length = exGvOk.lonCount))) ∧
    exceptIsOk (GridVector2D.load_from_protobuf_object {} exGvBadU) = false :=
  ⟨⟨_, rfl, (c8_vectorgrid_uses_declared_counts exGvOk (by decide)).1 _ rfl⟩,
   (c8_vectorgrid_uses_declared_counts exGvBadU (by decide)).2 (by decide)⟩

/-- Claim C9 (confirmed): `to_pandas` succeeds exactly on the `Array2D`
variant, wrapping the grid with the element names as column labels; every
other variant raises the base-class NotImplementedError. -/
theorem c9_to_pandas_only_array2d :
    ∀ v : DecodedResponse,
      (match v with
       | .array2d a =>
         ResponseData.to_pandas v = .ok { columns := a.element_names, values := a.data }
       | _ => ResponseData.to_pandas v = .error .notImplementedError) := by
  intro v
  cases v <;> rfl

/-- Claim C10 (confirmed): an error-free `GridScalar2D` decode never
assigns `units`, which stays at its constructor default (the empty
string) whatever the wire carries, while all other grid fields are
populated from the wire. -/
theorem c10_gridscalar_units_never_assigned (gs : PbRetGridScalar2D) (a : GridScalar2D)
    (h : gs.request.errorCode = 0)
    (hok : GridScalar2D.load_from_protobuf_object {} gs = .ok a) :
    a.units = "" ∧
    a.request = some (RequestInfo.create_from_protobuf gs.request) ∧
    a.start_lat = gs.startLat ∧ a.start_lon = gs.startLon ∧
    a.end_lat = gs.endLat ∧ a.end_lon = gs.endLon ∧
    a.lat_count = gs.latCount ∧ a.lon_count = gs.lonCount ∧
    a.lon_step = gs.lonStep ∧ a.lat_step = gs.latStep ∧
    a.lats = gs.lats ∧ a.lons = gs.lons ∧
    a.user_element_name = gs.userEleName ∧
    a.data ≠ none := by
  have hne : ¬ (RequestInfo.create_from_protobuf gs.request).error_code ≠ 0 := by
    simp [RequestInfo.create_from_protobuf, h]
  rw [GridScalar2D.load_from_protobuf_object, if_neg hne] at hok
  dsimp only at hok
  split at hok
  · exact absurd hok (by simp)
  · cases hok
    refine ⟨rfl, rfl, rfl, rfl, rfl, rfl, rfl, rfl, rfl, rfl, rfl, rfl, rfl, ?_⟩
    simp

/-- Witness for C10 at exGs10, whose wire units field carries degC. -/
theorem c10_gridscalar_units_never_assigned_witness :
    exGs10.units = "degC" ∧ exGs10.request.errorCode = 0 ∧
    GridScalar2D.load_from_protobuf_object {} exGs10 = .ok exGs10Decoded ∧
    (exGs10Decoded.units = "" ∧
     exGs10Decoded.request = some (RequestInfo.create_from_protobuf exGs10.request) ∧
     exGs10Decoded.start_lat = exGs10.startLat ∧ exGs10Decoded.start_lon = exGs10.startLon ∧
     exGs10Decoded.end_lat = exGs10.endLat ∧ exGs10Decoded.end_lon = exGs10.endLon ∧
     exGs10Decoded.lat_count = exGs10.latCount ∧ exGs10Decoded.lon_count = exGs10.lonCount ∧
     exGs10Decoded.lon_step = exGs10.lonStep ∧ exGs10Decoded.lat_step = exGs10.latStep ∧
     exGs10Decoded.lats = exGs10.lats ∧ exGs10Decoded.lons = exGs10.lons ∧
     exGs10Decoded.user_element_name = exGs10.userEleName ∧
     exGs10Decoded.data ≠ none) :=
  ⟨rfl, rfl, rfl, c10_gridscalar_units_never_assigned exGs10 exGs10Decoded rfl rfl⟩
